import Mathlib

/-!
Shallow embedding of `src/slack_bot.py` (class `SlackMessenger`).

The module has one class with a constructor (`__init__`), a file validator
(`_validate_file`) and one public operation (`send_dm`).  The embedding
models the local filesystem and the three remote Slack Web API operations
as an abstract `World`; `send_dm` is a pure function from a world and its
arguments to an outcome recording the returned value (or the exception
raised to the caller), the remote calls attempted in order, the log
entries written, and whether the attachment file handle was opened and
closed.
-/

namespace SlackBot

/-- Log levels written by the messenger (`logger.error` / `logger.info`). -/
inductive Level where
  | error
  | info
deriving DecidableEq, Repr

/-- One log record: level and message (timestamps belong to the logger). -/
abbrev LogEntry := Level × String

/-- Exceptions that can arise inside `send_dm`:
`slackApi` models `slack_sdk.errors.SlackApiError`, `generic` models any
other `Exception`, and `unboundLocal` models Python raising
`UnboundLocalError` when a local variable is read before assignment. -/
inductive Exn where
  | slackApi (msg : String)
  | generic (msg : String)
  | unboundLocal (name : String)
deriving DecidableEq, Repr

/-- `str(e)` for the modelled exceptions. -/
def Exn.str : Exn → String
  | .slackApi m => m
  | .generic m => m
  | .unboundLocal n => "local variable " ++ n ++ " referenced before assignment"

/-- How one call to `send_dm` terminates: a `return` of a boolean, or an
exception propagating to the caller. -/
inductive SendResult where
  | returned (b : Bool)
  | raised (e : Exn)
deriving DecidableEq, Repr

/-- A remote Slack Web API call, with the arguments the code passes
(`mrkdwn=formatting` on the message post, `title=file_path.name` on the
upload; the uploaded handle is identified by its path). -/
inductive RemoteCall where
  | conversationsOpen (users : List String)
  | chatPostMessage (channel : String) (text : String) (mrkdwn : Bool)
  | filesUpload (channels : String) (file : String) (title : String)
deriving DecidableEq, Repr

/-- The environment of one call: the filesystem (`fs p` is the size in
bytes of the regular file at path `p`, when one exists) and the behaviour
of the three remote operations, each either returning normally or raising. -/
structure World where
  fs : String → Option Nat
  conversations_open : List String → Except Exn String
  chat_postMessage : String → String → Bool → Except Exn Unit
  files_upload : String → String → String → Except Exn Unit

/-- `self.config` built in `__init__` (lines 74–79). -/
structure Config where
  max_retries : Nat
  timeout : Nat
  max_file_size : Nat
  allowed_file_types : List String
deriving DecidableEq, Repr

/-- The fixed defaults: 3 retries (unused), 30s timeout, 10MB limit, and
the extension allow-list. -/
def defaultConfig : Config :=
  ⟨3, 30, 10 * 1024 * 1024,
    [".pdf", ".doc", ".docx", ".xls", ".xlsx", ".jpg", ".png", ".gif", ".txt"]⟩

/-- The constructed messenger: resolved token and configuration record. -/
structure SlackMessenger where
  token : String
  config : Config
deriving DecidableEq, Repr

/-- `SlackMessenger.__init__` (lines 59–82):
`self.token = token or os.getenv('SLACK_BOT_TOKEN')` — `or` falls through
on any falsy value, so an empty explicit token defers to the environment —
then `if not self.token: raise ValueError(...)`.  `env` is the value of
the `SLACK_BOT_TOKEN` environment variable (`none` when unset). -/
def SlackMessenger.init (token : Option String) (env : Option String) :
    Except String SlackMessenger :=
  let t : Option String :=
    match token with
    | some s => if s = "" then env else some s
    | none => env
  match t with
  | some s =>
      if s = "" then
        Except.error "Slack bot token not provided and SLACK_BOT_TOKEN not found in environment"
      else
        Except.ok ⟨s, defaultConfig⟩
  | none =>
      Except.error "Slack bot token not provided and SLACK_BOT_TOKEN not found in environment"

/-- Does one character list lead (start) the other?  Structural helper
for `py_startswith`. -/
def listLeads : List Char → List Char → Bool
  | [], _ => true
  | _ :: _, [] => false
  | a :: as, b :: bs => if a = b then listLeads as bs else false

/-- Python `str.startswith`: the guard `user_id.startswith('U')` at
line 157. -/
def py_startswith (s pre : String) : Bool :=
  listLeads pre.toList s.toList

/-- Split a character list on a separator character (the groups between
separators, in order; structural helper for `pathName`). -/
def splitOnChar (c : Char) : List Char → List (List Char)
  | [] => [[]]
  | a :: as =>
    match splitOnChar c as with
    | [] => if a = c then [[], []] else [[a]]
    | g :: gs => if a = c then [] :: g :: gs else (a :: g) :: gs

/-- `PurePath.name`: the final component of a path string. -/
def pathName (p : String) : String :=
  String.mk ((splitOnChar '/' p.toList).getLastD [])

/-- Index of the last occurrence of `'.'` in a character list (`str.rfind`). -/
def lastDotIdx (cs : List Char) : Option Nat :=
  (List.range cs.length).foldl
    (fun acc i => if cs.getD i ' ' = '.' then some i else acc) none

/-- `PurePath.suffix`: the extension of the final component, including the
dot; empty when the name has no dot, when the only dot is leading (hidden
files), or when the dot is the final character. -/
def pathSuffix (p : String) : String :=
  let n := (pathName p).toList
  match lastDotIdx n with
  | some i => if 0 < i ∧ i < n.length - 1 then String.mk (n.drop i) else ""
  | none => ""

/-- `str.lower()` (ASCII, which covers every extension compared here). -/
def pyLower (s : String) : String :=
  String.mk (s.toList.map Char.toLower)

/-- Boolean list membership by string equality (the `in` operator of
`suffix.lower() not in self.config[...]` at line 132). -/
def listHas : List String → String → Bool
  | [], _ => false
  | x :: xs, a => if x = a then true else listHas xs a

/-- `SlackMessenger._validate_file` (lines 109–136): existence check, then
size check (strictly-greater-than the limit fails), then case-insensitive
extension check, short-circuiting on the first failure.  Returns the
boolean result together with the error log entries written. -/
def validate_file (cfg : Config) (w : World) (p : String) : Bool × List LogEntry :=
  match w.fs p with
  | none => (false, [(Level.error, "File not found: " ++ p)])
  | some size =>
      if cfg.max_file_size < size then
        (false, [(Level.error, "File exceeds maximum size of "
          ++ toString (cfg.max_file_size / (1024 * 1024)) ++ "MB")])
      else if listHas cfg.allowed_file_types (pyLower (pathSuffix p)) = false then
        (false, [(Level.error, "File type " ++ pathSuffix p ++ " not allowed")])
      else
        (true, [])

/-- The outcome of one `send_dm` call: result (returned or raised), remote
calls attempted in order, log entries written, and whether the attachment
file handle was opened and whether it was closed. -/
structure SendOutcome where
  result : SendResult
  calls : List RemoteCall
  logs : List LogEntry
  openedHandle : Bool
  closedHandle : Bool
deriving DecidableEq, Repr

/-- The handler ladder around the remote calls: `except SlackApiError`
(line 193) logs "Failed to send message: ..."; any other exception escapes
to the outer `except Exception` (line 197), which logs
"Unexpected error: ...".  Both convert to a returned `False`. -/
def catchLog : Exn → LogEntry
  | .slackApi m => (Level.error, "Failed to send message: " ++ m)
  | e => (Level.error, "Unexpected error: " ++ e.str)

/-- The inner `try` of `send_dm` (lines 170–195): open the DM channel,
post the message with `mrkdwn=formatting`, then upload the attachment (if
a handle was opened) with `title=file_path.name`; each raise is caught and
converted to `False` with a log entry.  Returns (result, calls attempted
in order, log entries). -/
def sendRemote (w : World) (user_id message : String) (formatting : Bool)
    (attached : Option String) : SendResult × List RemoteCall × List LogEntry :=
  let c1 := RemoteCall.conversationsOpen [user_id]
  match w.conversations_open [user_id] with
  | .error e => (SendResult.returned false, [c1], [catchLog e])
  | .ok channel_id =>
    let c2 := RemoteCall.chatPostMessage channel_id message formatting
    match w.chat_postMessage channel_id message formatting with
    | .error e => (SendResult.returned false, [c1, c2], [catchLog e])
    | .ok _ =>
      match attached with
      | none =>
          (SendResult.returned true, [c1, c2],
            [(Level.info, "Successfully sent message to " ++ user_id)])
      | some p =>
        let c3 := RemoteCall.filesUpload channel_id p (pathName p)
        match w.files_upload channel_id p (pathName p) with
        | .error e => (SendResult.returned false, [c1, c2, c3], [catchLog e])
        | .ok _ =>
            (SendResult.returned true, [c1, c2, c3],
              [(Level.info, "Successfully sent message to " ++ user_id)])

/-- The no-attachment tail of `send_dm`: no handle is ever opened, the
`finally` clause sees `files = None` and closes nothing. -/
def send_dm_noFile (w : World) (user_id message : String)
    (formatting : Bool) : SendOutcome :=
  let r := sendRemote w user_id message formatting none
  ⟨r.1, r.2.1, r.2.2, false, false⟩

/-- `SlackMessenger.send_dm` (lines 138–203).

Control flow of the source: an outer `try` whose first statement is the
user-id guard (line 157) and whose second is `files = None` (line 162);
`if file_path:` (Python truthiness: `None` and `""` are falsy) validates
and opens the attachment; the inner `try` performs the remote calls; the
`finally` (lines 200–203) evaluates `if files:` and closes the handle.

When the user-id guard fails, `return False` runs the `finally` before the
local `files` has been assigned, so evaluating `files` raises
`UnboundLocalError`; an exception raised in a `finally` clause is not
caught by the handlers of that same statement and replaces the return
value, so the call raises to the caller.  On every path that reaches
line 162, `files` is bound and the `finally` closes any opened handle. -/
def send_dm (cfg : Config) (w : World) (user_id message : String)
    (formatting : Bool) (file_path : Option String) : SendOutcome :=
  if py_startswith user_id "U" = false then
    ⟨SendResult.raised (Exn.unboundLocal "files"), [],
      [(Level.error, "Invalid user ID format: " ++ user_id)], false, false⟩
  else
    match file_path with
    | none => send_dm_noFile w user_id message formatting
    | some p =>
        if p = "" then
          send_dm_noFile w user_id message formatting
        else
          match validate_file cfg w p with
          | (false, vlogs) => ⟨SendResult.returned false, [], vlogs, false, false⟩
          | (true, vlogs) =>
              let r := sendRemote w user_id message formatting (some p)
              ⟨r.1, r.2.1, vlogs ++ r.2.2, true, true⟩

/-- Python falsiness of an optional string: `None` and the empty string
are the falsy values a `str`-or-`None` parameter can take. -/
def pyFalsy : Option String → Bool
  | none => true
  | some s => if s = "" then true else false

/-- A world whose remote service accepts everything and whose filesystem
holds a 2MB `docs/report.pdf`, an over-limit `big.pdf`, an exactly-10MB
`exact.pdf`, a small `Report.PDF` and a small `virus.exe`. -/
def wOk : World :=
  ⟨fun p =>
      if p = "docs/report.pdf" then some (2 * 1024 * 1024)
      else if p = "big.pdf" then some (10 * 1024 * 1024 + 1)
      else if p = "exact.pdf" then some (10 * 1024 * 1024)
      else if p = "Report.PDF" then some 512
      else if p = "virus.exe" then some 512
      else none,
    fun _ => Except.ok "C123",
    fun _ _ _ => Except.ok (),
    fun _ _ _ => Except.ok ()⟩

/-- A world like `wOk` whose message post raises a Slack API error. -/
def wPostFails : World :=
  ⟨fun p => if p = "docs/report.pdf" then some (2 * 1024 * 1024) else none,
    fun _ => Except.ok "C123",
    fun _ _ _ => Except.error (Exn.slackApi "ratelimited"),
    fun _ _ _ => Except.ok ()⟩

/-- C1: the spec states that no error ever escapes `send_direct_message`,
every failure being absorbed and converted to a returned `false`.  The
code violates this: at a user id not starting with `U` the guard at
line 157 returns inside the outer `try`, the `finally` at line 201 then
reads the still-unassigned local `files`, and the resulting
`UnboundLocalError` propagates to the caller in place of the return. -/
theorem send_dm_raises_on_bad_user_id :
    send_dm defaultConfig wOk "X12345" "hello" false none =
      ⟨SendResult.raised (Exn.unboundLocal "files"), [],
        [(Level.error, "Invalid user ID format: X12345")], false, false⟩ := by
  decide

/-- C2: for every user id not starting with `U`, the code logs the
invalid-format error and attempts no remote call, as the claim says, but
it then raises `UnboundLocalError` out of the call (the `finally` clause
reads the unassigned local `files`) instead of returning `false`. -/
theorem send_dm_bad_prefix_outcome (cfg : Config) (w : World)
    (user_id message : String) (formatting : Bool) (file_path : Option String)
    (h : py_startswith user_id "U" = false) :
    send_dm cfg w user_id message formatting file_path =
      ⟨SendResult.raised (Exn.unboundLocal "files"), [],
        [(Level.error, "Invalid user ID format: " ++ user_id)], false, false⟩ := by
  simp [send_dm, h]

/-- Witness for C2 at the concrete input `"W777"`. -/
theorem send_dm_bad_prefix_outcome_witness :
    py_startswith "W777" "U" = false ∧
      send_dm defaultConfig wOk "W777" "msg" true none =
        ⟨SendResult.raised (Exn.unboundLocal "files"), [],
          [(Level.error, "Invalid user ID format: W777")], false, false⟩ :=
  ⟨by decide,
    send_dm_bad_prefix_outcome defaultConfig wOk "W777" "msg" true none (by decide)⟩

/-- C3 counterexample: the empty string is a `file_path` that references
no existing file, and `validate_file` rejects it, yet
`send_dm "U1234567" "hi"` with `file_path=""` posts the message and
returns `true`: `if file_path:` at line 163 is falsy on `""`, so the
attachment branch, validation included, is skipped entirely. -/
theorem send_dm_empty_path_posts_message :
    (validate_file defaultConfig wOk "").1 = false ∧
      send_dm defaultConfig wOk "U1234567" "hi" false (some "") =
        ⟨SendResult.returned true,
          [RemoteCall.conversationsOpen ["U1234567"],
           RemoteCall.chatPostMessage "C123" "hi" false],
          [(Level.info, "Successfully sent message to U1234567")],
          false, false⟩ := by
  decide

/-- C3 (amended): for every NON-EMPTY `file_path` naming no existing file
and any user id starting with `U`, `validate_file` returns `false` with a
not-found log, and `send_dm` returns `false` having attempted no remote
call — in particular no message is posted. -/
theorem send_dm_missing_file (cfg : Config) (w : World)
    (user_id message : String) (formatting : Bool) (p : String)
    (hu : py_startswith user_id "U" = true) (hp : p ≠ "")
    (hfs : w.fs p = none) :
    validate_file cfg w p = (false, [(Level.error, "File not found: " ++ p)]) ∧
      send_dm cfg w user_id message formatting (some p) =
        ⟨SendResult.returned false, [],
          [(Level.error, "File not found: " ++ p)], false, false⟩ := by
  have hv : validate_file cfg w p =
      (false, [(Level.error, "File not found: " ++ p)]) := by
    simp [validate_file, hfs]
  refine ⟨hv, ?_⟩
  simp [send_dm, hu, hp, hv]

/-- Witness for C3 (amended) at the concrete path `"missing.pdf"`. -/
theorem send_dm_missing_file_witness :
    validate_file defaultConfig wOk "missing.pdf" =
        (false, [(Level.error, "File not found: missing.pdf")]) ∧
      send_dm defaultConfig wOk "U1234567" "hi" true (some "missing.pdf") =
        ⟨SendResult.returned false, [],
          [(Level.error, "File not found: missing.pdf")], false, false⟩ :=
  send_dm_missing_file defaultConfig wOk "U1234567" "hi" true "missing.pdf"
    (by decide) (by decide) (by decide)

/-- C4: when the remote message post raises a Slack API error,
`send_dm` returns `false`, logs the error detail, and the file-upload
call is never attempted even though a validated attachment was supplied
(and its handle, already opened, is still closed). -/
theorem send_dm_post_error (w : World) (user_id message : String)
    (formatting : Bool) (p ch m : String)
    (hu : py_startswith user_id "U" = true) (hp : p ≠ "")
    (hv : validate_file defaultConfig w p = (true, []))
    (hopen : w.conversations_open [user_id] = Except.ok ch)
    (hpost : w.chat_postMessage ch message formatting =
      Except.error (Exn.slackApi m)) :
    send_dm defaultConfig w user_id message formatting (some p) =
      ⟨SendResult.returned false,
        [RemoteCall.conversationsOpen [user_id],
         RemoteCall.chatPostMessage ch message formatting],
        [(Level.error, "Failed to send message: " ++ m)], true, true⟩ ∧
    ∀ (c f t : String), RemoteCall.filesUpload c f t ∉
      (send_dm defaultConfig w user_id message formatting (some p)).calls := by
  have h1 : send_dm defaultConfig w user_id message formatting (some p) =
      ⟨SendResult.returned false,
        [RemoteCall.conversationsOpen [user_id],
         RemoteCall.chatPostMessage ch message formatting],
        [(Level.error, "Failed to send message: " ++ m)], true, true⟩ := by
    simp [send_dm, hu, hp, hv, sendRemote, hopen, hpost, catchLog]
  exact ⟨h1, by simp [h1]⟩

/-- Witness for C4 in the world `wPostFails`. -/
theorem send_dm_post_error_witness :
    send_dm defaultConfig wPostFails "U1234567" "see attached" false
        (some "docs/report.pdf") =
      ⟨SendResult.returned false,
        [RemoteCall.conversationsOpen ["U1234567"],
         RemoteCall.chatPostMessage "C123" "see attached" false],
        [(Level.error, "Failed to send message: ratelimited")], true, true⟩ ∧
    ∀ (c f t : String), RemoteCall.filesUpload c f t ∉
      (send_dm defaultConfig wPostFails "U1234567" "see attached" false
        (some "docs/report.pdf")).calls :=
  send_dm_post_error wPostFails "U1234567" "see attached" false
    "docs/report.pdf" "C123" "ratelimited"
    (by decide) (by decide) (by decide) rfl rfl

/-- C5: the validation checks run in source order — existence, then size,
then extension — short-circuiting on the first failure: a missing path
produces only the not-found log, any existing file strictly larger than
`max_file_size` (10MB) is rejected with the size log regardless of its
extension, and a file of exactly `max_file_size` passes the size check, its
outcome decided solely by the extension check. -/
theorem validate_file_check_order (w : World) (p : String) (s : Nat) :
    (w.fs p = none →
      validate_file defaultConfig w p =
        (false, [(Level.error, "File not found: " ++ p)])) ∧
    (w.fs p = some s → defaultConfig.max_file_size < s →
      validate_file defaultConfig w p =
        (false, [(Level.error, "File exceeds maximum size of 10MB")])) ∧
    (w.fs p = some defaultConfig.max_file_size →
      ((validate_file defaultConfig w p).1 = true ↔
        listHas defaultConfig.allowed_file_types (pyLower (pathSuffix p)) = true)) := by
  refine ⟨fun h => by simp [validate_file, h], fun h hs => ?_, fun h => ?_⟩
  · simp [validate_file, h, hs]
    rfl
  · have hns : ¬ defaultConfig.max_file_size < defaultConfig.max_file_size :=
      lt_irrefl _
    cases hcase : listHas defaultConfig.allowed_file_types (pyLower (pathSuffix p)) <;>
      simp [validate_file, h, hns, hcase]

/-- Witness for C5: an 10MB+1 `big.pdf` is rejected with the size log, the
exactly-10MB `exact.pdf` passes, and a missing `absent.txt` produces only
the not-found log. -/
theorem validate_file_check_order_witness :
    validate_file defaultConfig wOk "big.pdf" =
        (false, [(Level.error, "File exceeds maximum size of 10MB")]) ∧
      (validate_file defaultConfig wOk "exact.pdf").1 = true ∧
      validate_file defaultConfig wOk "absent.txt" =
        (false, [(Level.error, "File not found: absent.txt")]) :=
  ⟨(validate_file_check_order wOk "big.pdf" (10 * 1024 * 1024 + 1)).2.1
      (by decide) (by decide),
    ((validate_file_check_order wOk "exact.pdf" 0).2.2 (by decide)).mpr (by decide),
    (validate_file_check_order wOk "absent.txt" 0).1 (by decide)⟩

/-- Boolean membership `listHas` agrees with list membership. -/
theorem listHas_eq_true_iff (l : List String) (a : String) :
    listHas l a = true ↔ a ∈ l := by
  induction l with
  | nil => simp [listHas]
  | cons x xs ih =>
      by_cases hx : x = a
      · simp [listHas, hx]
      · have hstep : listHas (x :: xs) a = listHas xs a := by
          simp [listHas, hx]
        rw [hstep, ih, List.mem_cons]
        constructor
        · exact Or.inr
        · rintro (h | h)
          · exact absurd h.symm hx
          · exact h

/-- C6: for every existing file of acceptable size, validation succeeds
iff its extension, lowercased, is in the allow-list
`{.pdf, .doc, .docx, .xls, .xlsx, .jpg, .png, .gif, .txt}` — so an
uppercase `.PDF` is accepted and an `.exe` of valid size is rejected. -/
theorem validate_file_extension_allowlist (w : World) (p : String) (s : Nat)
    (hfs : w.fs p = some s) (hs : s ≤ defaultConfig.max_file_size) :
    (validate_file defaultConfig w p).1 = true ↔
      pyLower (pathSuffix p) ∈
        ([".pdf", ".doc", ".docx", ".xls", ".xlsx", ".jpg", ".png", ".gif",
          ".txt"] : List String) := by
  have hns : ¬ defaultConfig.max_file_size < s := Nat.not_lt.mpr hs
  have hlit : ([".pdf", ".doc", ".docx", ".xls", ".xlsx", ".jpg", ".png",
      ".gif", ".txt"] : List String) = defaultConfig.allowed_file_types := rfl
  rw [hlit, ← listHas_eq_true_iff]
  cases hcase : listHas defaultConfig.allowed_file_types (pyLower (pathSuffix p)) <;>
    simp [validate_file, hfs, hns, hcase]

/-- Witness for C6: `Report.PDF` (uppercase extension) is accepted,
`virus.exe` of the same small size is rejected. -/
theorem validate_file_extension_allowlist_witness :
    (validate_file defaultConfig wOk "Report.PDF").1 = true ∧
      (validate_file defaultConfig wOk "virus.exe").1 = false := by
  constructor
  · exact (validate_file_extension_allowlist wOk "Report.PDF" 512
      (by decide) (by decide)).mpr (by decide)
  · have h := validate_file_extension_allowlist wOk "virus.exe" 512
      (by decide) (by decide)
    exact Bool.eq_false_iff.mpr (fun hb => absurd (h.mp hb) (by decide))

/-- C7: construction fails by raising (producing no instance) iff no
credential is available from the explicit argument or the environment
variable (an available credential being a non-empty string); when one is
available, the produced instance holds a non-empty token and the default
configuration record. -/
theorem init_fails_iff_no_credential (token env : Option String) :
    ((∃ e, SlackMessenger.init token env = Except.error e) ↔
      pyFalsy token = true ∧ pyFalsy env = true) ∧
    (∀ m, SlackMessenger.init token env = Except.ok m →
      m.config = defaultConfig ∧ m.token ≠ "") := by
  rcases token with _ | s
  · rcases env with _ | t
    · simp [SlackMessenger.init, pyFalsy]
    · by_cases ht : t = "" <;> simp [SlackMessenger.init, pyFalsy, ht]
  · rcases env with _ | t
    · by_cases hs : s = "" <;> simp [SlackMessenger.init, pyFalsy, hs]
    · by_cases hs : s = "" <;> by_cases ht : t = "" <;>
        simp [SlackMessenger.init, pyFalsy, hs, ht]

/-- Witness for C7: with neither source set, construction errors; with an
explicit token, the produced instance is fully configured. -/
theorem init_fails_iff_no_credential_witness :
    (∃ e, SlackMessenger.init none none = Except.error e) ∧
      ∀ m, SlackMessenger.init (some "xoxb-1") none = Except.ok m →
        m.config = defaultConfig ∧ m.token ≠ "" :=
  ⟨(init_fails_iff_no_credential none none).1.mpr (by decide),
    (init_fails_iff_no_credential (some "xoxb-1") none).2⟩

/-- C8: on a fully successful send with a validated attachment, exactly
three remote calls occur in order — open the DM channel, post the message
with `mrkdwn` equal to the `formatting` argument, upload the file to the
same channel with its base name as title — and the call returns `true`
(the handle having been opened and closed). -/
theorem send_dm_success_with_attachment (w : World) (user_id message : String)
    (formatting : Bool) (p ch : String)
    (hu : py_startswith user_id "U" = true) (hp : p ≠ "")
    (hv : validate_file defaultConfig w p = (true, []))
    (hopen : w.conversations_open [user_id] = Except.ok ch)
    (hpost : w.chat_postMessage ch message formatting = Except.ok ())
    (hup : w.files_upload ch p (pathName p) = Except.ok ()) :
    send_dm defaultConfig w user_id message formatting (some p) =
      ⟨SendResult.returned true,
        [RemoteCall.conversationsOpen [user_id],
         RemoteCall.chatPostMessage ch message formatting,
         RemoteCall.filesUpload ch p (pathName p)],
        [(Level.info, "Successfully sent message to " ++ user_id)],
        true, true⟩ := by
  simp [send_dm, hu, hp, hv, sendRemote, hopen, hpost, hup]

/-- Witness for C8 in the world `wOk` with the 2MB `docs/report.pdf`. -/
theorem send_dm_success_with_attachment_witness :
    send_dm defaultConfig wOk "U1234567" "See attached" true
        (some "docs/report.pdf") =
      ⟨SendResult.returned true,
        [RemoteCall.conversationsOpen ["U1234567"],
         RemoteCall.chatPostMessage "C123" "See attached" true,
         RemoteCall.filesUpload "C123" "docs/report.pdf"
           (pathName "docs/report.pdf")],
        [(Level.info, "Successfully sent message to U1234567")],
        true, true⟩ :=
  send_dm_success_with_attachment wOk "U1234567" "See attached" true
    "docs/report.pdf" "C123" (by decide) (by decide) (by decide) rfl rfl rfl

/-- C9: whenever `send_dm` opens the attachment file handle, the handle is
closed on every exit path of the operation — success, remote failure, or
unexpected error — whether or not the upload step was reached. -/
theorem send_dm_handle_closed (cfg : Config) (w : World)
    (user_id message : String) (formatting : Bool) (file_path : Option String) :
    (send_dm cfg w user_id message formatting file_path).openedHandle = true →
      (send_dm cfg w user_id message formatting file_path).closedHandle = true := by
  unfold send_dm
  repeat' split
  all_goals exact fun h => h

/-- Witness for C9: a send that opens the handle also closes it. -/
theorem send_dm_handle_closed_witness :
    (send_dm defaultConfig wOk "U7" "m" false (some "exact.pdf")).openedHandle
        = true ∧
      (send_dm defaultConfig wOk "U7" "m" false (some "exact.pdf")).closedHandle
        = true :=
  ⟨by decide,
    send_dm_handle_closed defaultConfig wOk "U7" "m" false (some "exact.pdf")
      (by decide)⟩

/-- C10: an empty explicit credential together with a non-empty
`SLACK_BOT_TOKEN` environment value does not fail construction — the `or`
fallback at line 66 triggers on any falsy argument, silently replacing the
empty explicit credential with the environment value. -/
theorem init_empty_token_env_fallback (e : String) (he : e ≠ "") :
    SlackMessenger.init (some "") (some e) = Except.ok ⟨e, defaultConfig⟩ := by
  simp [SlackMessenger.init, he]

/-- Witness for C10 at the concrete environment value `"xoxb-42"`. -/
theorem init_empty_token_env_fallback_witness :
    SlackMessenger.init (some "") (some "xoxb-42") =
      Except.ok ⟨"xoxb-42", defaultConfig⟩ :=
  init_empty_token_env_fallback "xoxb-42" (by decide)

end SlackBot
